import Mathlib

/- Verification of the MOM RabbitMQ client (mom_usuario.py, mom_broker.py).

   Shallow embedding: Python strings are modelled as lists of characters
   (Str); the Python string primitives the code uses (replace, split, join,
   startswith, endswith, sorted) are given executable models below.  The
   broker (RabbitMQ) is modelled as the resource state the code observes
   and mutates through pika and the management REST API: the list of queue
   names, fanout-exchange names, bindings, and a log of basic_publish
   calls.  External I/O values the code reads (the wall clock used for
   timestamps, the outcome of a basic_get fetch, the behaviour of the
   application callback) enter as explicit parameters. -/

namespace MOM

abbrev Str := List Char

/-- Coerce a Lean string literal to the character-list model. -/
def str (s : String) : Str := s.data

/-- Python s.replace(pat, rep), fuel-indexed so that it is structural
    (the fuel s.length is enough: every step of the Python scan consumes
    at least one character of s when pat is nonempty, and the source only
    ever calls replace with the nonempty pattern "user_"). -/
def py_replace_fuel (pat rep : Str) : Nat → Str → Str
  | 0, s => s
  | _ + 1, [] => []
  | fuel + 1, c :: rest =>
    if pat.isPrefixOf (c :: rest) then
      rep ++ py_replace_fuel pat rep fuel ((c :: rest).drop pat.length)
    else
      c :: py_replace_fuel pat rep fuel rest

/-- Python s.replace(pat, rep): replace every (left-to-right,
    non-overlapping) occurrence of pat in s by rep. -/
def py_replace (pat rep s : Str) : Str := py_replace_fuel pat rep s.length s

/-- Python (pat in s): pat occurs as a contiguous substring of s. -/
def contains_sub (pat : Str) : Str → Bool
  | [] => pat.isEmpty
  | c :: rest => pat.isPrefixOf (c :: rest) || contains_sub pat rest

/-- Python s.split(sep) for a one-character separator: the list of the
    (possibly empty) fragments of s between occurrences of sep. -/
def py_split (sep : Char) : Str → List Str
  | [] => [[]]
  | c :: rest =>
    if c = sep then [] :: py_split sep rest
    else
      match py_split sep rest with
      | [] => [[c]]
      | p :: ps => (c :: p) :: ps

/-- Python sep.join(parts). -/
def py_join (sep : Str) : List Str → Str
  | [] => []
  | [p] => p
  | p :: q :: ps => p ++ sep ++ py_join sep (q :: ps)

/-- Python string comparison (lexicographic on code points), as used by
    sorted(...) in the directory queries. -/
def lex_le : Str → Str → Bool
  | [], _ => true
  | _ :: _, [] => false
  | a :: as, b :: bs => if a = b then lex_le as bs else decide (a < b)

/-- Ordered insertion, the auxiliary step of the model of sorted(...). -/
def ins_ord (le : Str → Str → Bool) (a : Str) : List Str → List Str
  | [] => [a]
  | b :: bs => if le a b then a :: b :: bs else b :: ins_ord le a bs

/-- Python sorted(l) (insertion sort; only the ordering contract matters,
    not the algorithm the CPython runtime uses). -/
def py_sorted (le : Str → Str → Bool) : List Str → List Str
  | [] => []
  | a :: as => ins_ord le a (py_sorted le as)

/-- The per-queue-name step of RabbitMQCliente.buscar_usuarios_disponiveis
    (mom_usuario.py lines 217-221): if nome_fila.startswith("user_") the
    user name is recovered as nome_fila.replace("user_", ""). -/
def parse_user_queue (nome_fila : Str) : Option Str :=
  if (str "user_").isPrefixOf nome_fila then
    some (py_replace (str "user_") [] nome_fila)
  else none

/-- The per-queue-name step of
    RabbitMQCliente._carregar_assinaturas_existentes (mom_usuario.py lines
    182-192): for a queue that starts with "topic_" and ends with
    "_" + nome_usuario, split on "_" and rejoin everything strictly between
    the first and last fragment (partes[1:-1]) as the topic name. -/
def parse_subscription_queue (nome_usuario nome_fila : Str) : Option Str :=
  if (str "topic_").isPrefixOf nome_fila &&
      (str "_" ++ nome_usuario).isSuffixOf nome_fila then
    if 3 ≤ (py_split '_' nome_fila).length then
      some (py_join (str "_") ((py_split '_' nome_fila).drop 1).dropLast)
    else none
  else none

/-- The constants of class TipoMensagem (mom_usuario.py lines 42-47). -/
def MENSAGEM_DIRETA : Str := str "mensagem_direta"

/-- TipoMensagem.MENSAGEM_TOPICO. -/
def MENSAGEM_TOPICO : Str := str "mensagem_topico"

/-- TipoMensagem.MENSAGEM_FILA. -/
def MENSAGEM_FILA : Str := str "mensagem_fila"

/-- The structured message dict built by the three envio methods and the
    mensagem_simples fallback: keys tipo, remetente, destinatario, topico,
    fila, conteudo, timestamp (a key absent from a given dict is none). -/
structure Envelope where
  tipo : Str
  remetente : Option Str
  destinatario : Option Str
  topico : Option Str
  fila : Option Str
  conteudo : Str
  timestamp : Str
deriving DecidableEq

/-- One channel.basic_publish call: exchange, routing_key, the structured
    body (json.dumps is kept abstract: the dict itself is recorded), and
    whether delivery_mode=2 (persistent) was set. -/
structure Publicacao where
  exchange : Str
  routing_key : Str
  corpo : Envelope
  persistente : Bool
deriving DecidableEq

/-- The broker resource state the client observes and mutates: declared
    queue names, declared fanout exchange names, (exchange, queue)
    bindings, and the log of basic_publish calls. -/
structure Broker where
  filas : List Str
  exchanges : List Str
  bindings : List (Str × Str)
  publicacoes : List Publicacao
deriving DecidableEq

/-- Append an element to a resource list unless already present: RabbitMQ
    declare operations are idempotent for identical parameters. -/
def append_if_absent {α : Type} [DecidableEq α] (l : List α) (a : α) : List α :=
  if a ∈ l then l else l ++ [a]

/-- Number of occurrences of a in l (used to state exactly-once
    properties about the broker resource lists and the subscribed set). -/
def conta {α : Type} [DecidableEq α] (a : α) (l : List α) : Nat :=
  (l.filter (fun x => decide (x = a))).length

/-- channel.queue_declare(queue, durable=True). -/
def Broker.queue_declare (st : Broker) (q : Str) : Broker :=
  { st with filas := append_if_absent st.filas q }

/-- channel.exchange_declare(exchange, exchange_type=fanout, durable=True). -/
def Broker.exchange_declare (st : Broker) (e : Str) : Broker :=
  { st with exchanges := append_if_absent st.exchanges e }

/-- channel.queue_bind(exchange, queue). -/
def Broker.queue_bind (st : Broker) (e q : Str) : Broker :=
  { st with bindings := append_if_absent st.bindings (e, q) }

/-- channel.queue_delete(queue): removes the queue and its bindings
    (deleting an absent queue succeeds and is a no-op). -/
def Broker.queue_delete (st : Broker) (q : Str) : Broker :=
  { st with filas := st.filas.filter (fun x => x ≠ q),
            bindings := st.bindings.filter (fun p => p.2 ≠ q) }

/-- channel.basic_publish(exchange, routing_key, body, properties):
    appends one entry to the publish log. -/
def Broker.basic_publish (st : Broker) (ex rk : Str) (corpo : Envelope)
    (persistente : Bool) : Broker :=
  { st with publicacoes := st.publicacoes ++ [⟨ex, rk, corpo, persistente⟩] }

/-- The in-memory state of RabbitMQCliente relevant to the claims: the
    _conectado flag (connection health is folded into it) and the
    nome_usuario / topicos_assinados fields.  The topicos_assinados Python
    set is modelled as a duplicate-free list. -/
structure Cliente where
  conectado : Bool
  nome_usuario : Str
  topicos_assinados : List Str
deriving DecidableEq

/-- RabbitMQCliente.esta_conectado (mom_usuario.py lines 139-143). -/
def esta_conectado (cl : Cliente) : Bool := cl.conectado

/-- The result messages of the client operations.  Each constructor stands
    for one distinct (f-string template, interpolated values) return value
    of the source; two results are equal exactly when the source would
    return equal strings. -/
inductive Msg where
  | naoConectado : Msg
  | usuarioNaoExiste : Str → Msg
  | mensagemEnviadaComSucesso : Msg
  | topicoNaoExiste : Str → Msg
  | mensagemPublicadaNoTopico : Str → Msg
  | mensagemEnviadaParaFila : Str → Msg
  | inscritoNoTopico : Str → Msg
  | assinaturaRemovida : Str → Msg
deriving DecidableEq

/-- RabbitMQCliente.buscar_usuarios_disponiveis (mom_usuario.py lines
    199-226): list the broker queues, keep those starting with "user_",
    strip via replace("user_", ""), and return them sorted. -/
def buscar_usuarios_disponiveis (st : Broker) : List Str :=
  py_sorted lex_le
    ((st.filas.filter (fun q => (str "user_").isPrefixOf q)).map
      (fun q => py_replace (str "user_") [] q))

/-- The binding-queue name f"topic_{nome_topico}_{nome_usuario}". -/
def fila_topico (nome_topico nome_usuario : Str) : Str :=
  str "topic_" ++ nome_topico ++ str "_" ++ nome_usuario

/-- RabbitMQCliente.assinar_topico (mom_usuario.py lines 289-323). -/
def assinar_topico (cl : Cliente) (st : Broker) (nome_topico : Str) :
    (Bool × Msg) × (Cliente × Broker) :=
  if esta_conectado cl = false then ((false, Msg.naoConectado), (cl, st))
  else
    let st1 := st.exchange_declare nome_topico
    let st2 := st1.queue_declare (fila_topico nome_topico cl.nome_usuario)
    let st3 := st2.queue_bind nome_topico (fila_topico nome_topico cl.nome_usuario)
    let cl3 : Cliente :=
      { cl with topicos_assinados := append_if_absent cl.topicos_assinados nome_topico }
    ((true, Msg.inscritoNoTopico nome_topico), (cl3, st3))

/-- RabbitMQCliente.desassinar_topico (mom_usuario.py lines 325-349):
    delete the binding queue, discard the topic from the in-memory set,
    and return the same success message in every case. -/
def desassinar_topico (cl : Cliente) (st : Broker) (nome_topico : Str) :
    (Bool × Msg) × (Cliente × Broker) :=
  if esta_conectado cl = false then ((false, Msg.naoConectado), (cl, st))
  else
    let st1 := st.queue_delete (fila_topico nome_topico cl.nome_usuario)
    let cl1 : Cliente :=
      { cl with topicos_assinados := cl.topicos_assinados.filter (fun x => x ≠ nome_topico) }
    ((true, Msg.assinaturaRemovida nome_topico), (cl1, st1))

/-- RabbitMQCliente.enviar_mensagem_usuario (mom_usuario.py lines
    353-398).  agora is the datetime.now().isoformat() value. -/
def enviar_mensagem_usuario (cl : Cliente) (st : Broker)
    (destinatario conteudo agora : Str) : (Bool × Msg) × Broker :=
  if esta_conectado cl = false then ((false, Msg.naoConectado), st)
  else
    if destinatario ∈ buscar_usuarios_disponiveis st then
      ((true, Msg.mensagemEnviadaComSucesso),
       st.basic_publish [] (str "user_" ++ destinatario)
         { tipo := MENSAGEM_DIRETA, remetente := some cl.nome_usuario,
           destinatario := some destinatario, topico := none, fila := none,
           conteudo := conteudo, timestamp := agora } true)
    else ((false, Msg.usuarioNaoExiste destinatario), st)

/-- RabbitMQCliente.enviar_mensagem_topico (mom_usuario.py lines 400-448):
    the passive exchange_declare raises exactly when the exchange is
    absent, without ever creating it. -/
def enviar_mensagem_topico (cl : Cliente) (st : Broker)
    (nome_topico conteudo agora : Str) : (Bool × Msg) × Broker :=
  if esta_conectado cl = false then ((false, Msg.naoConectado), st)
  else
    if nome_topico ∈ st.exchanges then
      ((true, Msg.mensagemPublicadaNoTopico nome_topico),
       st.basic_publish nome_topico []
         { tipo := MENSAGEM_TOPICO, remetente := some cl.nome_usuario,
           destinatario := none, topico := some nome_topico, fila := none,
           conteudo := conteudo, timestamp := agora } true)
    else ((false, Msg.topicoNaoExiste nome_topico), st)

/-- RabbitMQCliente.enviar_mensagem_fila (mom_usuario.py lines 450-488):
    publish to the default exchange with the queue name as routing key;
    no queue_declare is performed. -/
def enviar_mensagem_fila (cl : Cliente) (st : Broker)
    (nome_fila conteudo agora : Str) : (Bool × Msg) × Broker :=
  if esta_conectado cl = false then ((false, Msg.naoConectado), st)
  else
    ((true, Msg.mensagemEnviadaParaFila nome_fila),
     st.basic_publish [] nome_fila
       { tipo := MENSAGEM_FILA, remetente := some cl.nome_usuario,
         destinatario := none, topico := none, fila := some nome_fila,
         conteudo := conteudo, timestamp := agora } true)

/-- The messagebox.showwarning validation warnings of the three GUI send
    handlers. -/
inductive GuiAviso where
  | selecioneDestinatario : GuiAviso
  | selecioneTopico : GuiAviso
  | selecioneFila : GuiAviso
  | digiteMensagem : GuiAviso
  | mensagemMuitoLonga : GuiAviso
deriving DecidableEq

/-- The outcome of a GUI send handler: a validation warning (shown before
    any client/broker call), a success info box, or an error box with the
    client result message. -/
inductive GuiResultado where
  | aviso : GuiAviso → GuiResultado
  | info : Msg → GuiResultado
  | erro : Msg → GuiResultado
deriving DecidableEq

/-- Whether a handler outcome is a validation warning. -/
def GuiResultado.e_aviso : GuiResultado → Bool
  | GuiResultado.aviso _ => true
  | _ => false

/-- UsuarioGUI._enviar_mensagem_usuario (mom_usuario.py lines 1154-1181).
    destinatario and conteudo stand for the widget texts after the
    .get(...).strip() reads at the top of the handler. -/
def gui_enviar_mensagem_usuario (cl : Cliente) (st : Broker)
    (destinatario conteudo agora : Str) : GuiResultado × Broker :=
  if destinatario = [] then (GuiResultado.aviso GuiAviso.selecioneDestinatario, st)
  else if conteudo = [] then (GuiResultado.aviso GuiAviso.digiteMensagem, st)
  else if 5000 < conteudo.length then (GuiResultado.aviso GuiAviso.mensagemMuitoLonga, st)
  else
    match enviar_mensagem_usuario cl st destinatario conteudo agora with
    | ((true, _), st2) => (GuiResultado.info Msg.mensagemEnviadaComSucesso, st2)
    | ((false, m), st2) => (GuiResultado.erro m, st2)

/-- UsuarioGUI._enviar_mensagem_topico (mom_usuario.py lines 1183-1209). -/
def gui_enviar_mensagem_topico (cl : Cliente) (st : Broker)
    (topico conteudo agora : Str) : GuiResultado × Broker :=
  if topico = [] then (GuiResultado.aviso GuiAviso.selecioneTopico, st)
  else if conteudo = [] then (GuiResultado.aviso GuiAviso.digiteMensagem, st)
  else if 5000 < conteudo.length then (GuiResultado.aviso GuiAviso.mensagemMuitoLonga, st)
  else
    match enviar_mensagem_topico cl st topico conteudo agora with
    | ((true, m), st2) => (GuiResultado.info m, st2)
    | ((false, m), st2) => (GuiResultado.erro m, st2)

/-- UsuarioGUI._enviar_mensagem_fila (mom_usuario.py lines 1211-1237). -/
def gui_enviar_mensagem_fila (cl : Cliente) (st : Broker)
    (fila conteudo agora : Str) : GuiResultado × Broker :=
  if fila = [] then (GuiResultado.aviso GuiAviso.selecioneFila, st)
  else if conteudo = [] then (GuiResultado.aviso GuiAviso.digiteMensagem, st)
  else if 5000 < conteudo.length then (GuiResultado.aviso GuiAviso.mensagemMuitoLonga, st)
  else
    match enviar_mensagem_fila cl st fila conteudo agora with
    | ((true, m), st2) => (GuiResultado.info m, st2)
    | ((false, m), st2) => (GuiResultado.erro m, st2)

/-- The delivered message body as the code can observe it: bytes that are
    not valid UTF-8, bytes decoding to text that json.loads rejects (the
    raw text is carried), or bytes holding the JSON encoding of a
    structured envelope (json.loads of json.dumps is the identity, so the
    envelope itself is carried). -/
inductive Body where
  | invalidUtf8 : Body
  | rawText : Str → Body
  | jsonEnvelope : Envelope → Body
deriving DecidableEq

/-- The Python exceptions distinguished by the consumption code. -/
inductive ExcecaoPython where
  | unicodeDecodeError : ExcecaoPython
  | jsonDecodeError : ExcecaoPython
  | excecaoCallback : ExcecaoPython
deriving DecidableEq

/-- body.decode("utf-8") followed by json.loads(...) with no local
    handler, as in the worker callbacks (mom_usuario.py lines 539-540 and
    590-591): either exception escapes to the enclosing except. -/
def decodificar_envelope : Body → Except ExcecaoPython Envelope
  | Body.invalidUtf8 => Except.error ExcecaoPython.unicodeDecodeError
  | Body.rawText _ => Except.error ExcecaoPython.jsonDecodeError
  | Body.jsonEnvelope e => Except.ok e

/-- Behaviour of the application delivery callback on one message. -/
inductive ResultadoCallback where
  | ok : ResultadoCallback
  | excecao : ResultadoCallback
deriving DecidableEq

/-- Observable outcome of one worker callback invocation: how many
    ch.basic_ack calls were made for the delivery, and whether an
    exception escaped the callback into pika's consume loop. -/
structure ExecucaoCallback where
  acks : Nat
  excecao_propagada : Bool
deriving DecidableEq

/-- The try-block of callback_fila_pessoal / callback_topicos: decode the
    body, json.loads it, invoke self.callback_mensagem if set, then
    ch.basic_ack.  Returns the number of acks performed inside the block,
    or the exception that escaped it. -/
def bloco_try_callback (body : Body) (cb : Option ResultadoCallback) :
    Except ExcecaoPython Nat := do
  let _ ← decodificar_envelope body
  match cb with
  | some ResultadoCallback.excecao => throw ExcecaoPython.excecaoCallback
  | _ => pure ()
  pure 1

/-- callback_fila_pessoal (mom_usuario.py lines 536-551): the except
    branch logs the error and still acks, and nothing is re-raised. -/
def callback_fila_pessoal (body : Body) (cb : Option ResultadoCallback) :
    ExecucaoCallback :=
  match bloco_try_callback body cb with
  | Except.ok acks => { acks := acks, excecao_propagada := false }
  | Except.error _ => { acks := 1, excecao_propagada := false }

/-- callback_topicos (mom_usuario.py lines 587-602): textually the same
    handler as callback_fila_pessoal, for the topic worker. -/
def callback_topicos (body : Body) (cb : Option ResultadoCallback) :
    ExecucaoCallback :=
  match bloco_try_callback body cb with
  | Except.ok acks => { acks := acks, excecao_propagada := false }
  | Except.error _ => { acks := 1, excecao_propagada := false }

/-- Outcome of the single channel.basic_get call in
    consumir_uma_mensagem_fila: the call raised, the queue was empty
    (method_frame is None), or a message body was delivered. -/
inductive Busca where
  | erro : Busca
  | vazia : Busca
  | entrega : Body → Busca
deriving DecidableEq

/-- The inner try/except of consumir_uma_mensagem_fila (mom_usuario.py
    lines 652-662): json.loads with a json.JSONDecodeError fallback that
    builds the raw mensagem_simples dict; a UnicodeDecodeError from
    body.decode is not a JSONDecodeError, so it is not caught here. -/
def interpretar_corpo (body : Body) (agora : Str) : Except ExcecaoPython Envelope :=
  match body with
  | Body.invalidUtf8 => Except.error ExcecaoPython.unicodeDecodeError
  | Body.rawText s =>
      Except.ok { tipo := str "mensagem_simples", remetente := none,
                  destinatario := none, topico := none, fila := none,
                  conteudo := s, timestamp := agora }
  | Body.jsonEnvelope e => Except.ok e

/-- RabbitMQCliente.consumir_uma_mensagem_fila (mom_usuario.py lines
    631-672).  The Nat is the number of basic_ack calls made. -/
def consumir_uma_mensagem_fila (cl : Cliente) (nome_fila : Str)
    (busca : Busca) (agora : Str) : (Bool × Option Envelope) × Nat :=
  if esta_conectado cl = false then ((false, none), 0)
  else
    match busca with
    | Busca.erro => ((false, none), 0)
    | Busca.vazia => ((false, none), 0)
    | Busca.entrega body =>
      match interpretar_corpo body agora with
      | Except.error _ => ((false, none), 0)
      | Except.ok mensagem => ((true, some mensagem), 1)

/- Helper lemmas about the string-primitive models. -/

theorem isPrefixOf_append_self (l n : Str) : l.isPrefixOf (l ++ n) = true := by
  induction l with
  | nil => simp
  | cons a as ih => simp [List.isPrefixOf, ih]

theorem isSuffixOf_append_self (l pre : Str) : l.isSuffixOf (pre ++ l) = true := by
  unfold List.isSuffixOf
  rw [List.reverse_append]
  exact isPrefixOf_append_self _ _

theorem eq_append_drop_of_isPrefixOf (l : Str) : ∀ q : Str,
    l.isPrefixOf q = true → l ++ q.drop l.length = q := by
  induction l with
  | nil => intro q _; simp
  | cons a as ih =>
    intro q h
    cases q with
    | nil => simp [List.isPrefixOf] at h
    | cons b bs =>
      simp only [List.isPrefixOf, Bool.and_eq_true, beq_iff_eq] at h
      simp [h.1, ih bs h.2]

theorem py_replace_fuel_of_not_contains (pat rep : Str) (fuel : Nat) :
    ∀ s : Str, contains_sub pat s = false → py_replace_fuel pat rep fuel s = s := by
  induction fuel with
  | zero => intro s _; rfl
  | succ n ih =>
    intro s h
    cases s with
    | nil => rfl
    | cons c rest =>
      simp only [contains_sub, Bool.or_eq_false_iff] at h
      simp [py_replace_fuel, h.1, ih rest h.2]

theorem py_replace_append_self (pat rep n : Str) (hpat : pat ≠ [])
    (h : contains_sub pat n = false) : py_replace pat rep (pat ++ n) = rep ++ n := by
  cases pat with
  | nil => exact absurd rfl hpat
  | cons p ps =>
    have hpre : (p :: ps).isPrefixOf (p :: (ps ++ n)) = true :=
      isPrefixOf_append_self (p :: ps) n
    have hdrop : List.drop (p :: ps).length (p :: (ps ++ n)) = n :=
      List.drop_left (p :: ps) n
    show py_replace_fuel (p :: ps) rep ((p :: ps) ++ n).length ((p :: ps) ++ n) = rep ++ n
    have hform : (p :: ps) ++ n = p :: (ps ++ n) := rfl
    rw [hform, List.length_cons, py_replace_fuel, hpre]
    simp only [if_true]
    rw [hdrop, py_replace_fuel_of_not_contains _ _ _ n h]

theorem py_split_cons (sep c : Char) (rest : Str) :
    py_split sep (c :: rest) =
      if c = sep then [] :: py_split sep rest
      else
        match py_split sep rest with
        | [] => [[c]]
        | p :: ps => (c :: p) :: ps := rfl

theorem py_split_ne_nil (sep : Char) (s : Str) : py_split sep s ≠ [] := by
  cases s with
  | nil => simp [py_split]
  | cons c rest =>
    unfold py_split
    by_cases h : c = sep
    · simp [h]
    · simp only [h, if_false]
      cases hx : py_split sep rest <;> simp

theorem py_split_of_not_mem (sep : Char) : ∀ s : Str, sep ∉ s → py_split sep s = [s] := by
  intro s
  induction s with
  | nil => intro _; rfl
  | cons c rest ih =>
    intro h
    have hc : ¬ c = sep := fun e => h (by simp [e])
    have hr : sep ∉ rest := fun e => h (List.mem_cons_of_mem _ e)
    simp [py_split, hc, ih hr]

theorem py_split_append (sep : Char) : ∀ xs ys : Str,
    py_split sep (xs ++ sep :: ys) = py_split sep xs ++ py_split sep ys := by
  intro xs ys
  induction xs with
  | nil => simp [py_split]
  | cons c rest ih =>
    by_cases h : c = sep
    · simp [py_split, h, ih]
    · have hne := py_split_ne_nil sep rest
      cases hpr : py_split sep rest with
      | nil => exact absurd hpr hne
      | cons p ps =>
        have e1 : (c :: rest) ++ sep :: ys = c :: (rest ++ sep :: ys) := rfl
        have hl : py_split sep ((c :: rest) ++ sep :: ys)
            = (c :: p) :: (ps ++ py_split sep ys) := by
          rw [e1, py_split_cons, if_neg h, ih, hpr, List.cons_append]
        have hr : py_split sep (c :: rest) = (c :: p) :: ps := by
          rw [py_split_cons, if_neg h, hpr]
        rw [hl, hr]
        rfl

theorem py_join_split (sep : Char) : ∀ s : Str, py_join [sep] (py_split sep s) = s := by
  intro s
  induction s with
  | nil => rfl
  | cons c rest ih =>
    have hne := py_split_ne_nil sep rest
    by_cases h : c = sep
    · cases hpr : py_split sep rest with
      | nil => exact absurd hpr hne
      | cons q qs =>
        rw [hpr] at ih
        have hsplit : py_split sep (c :: rest) = [] :: q :: qs := by
          rw [py_split_cons, if_pos h, hpr]
        rw [hsplit]
        show [] ++ [sep] ++ py_join [sep] (q :: qs) = c :: rest
        rw [← ih, h]
        rfl
    · cases hpr : py_split sep rest with
      | nil => exact absurd hpr hne
      | cons p ps =>
        rw [hpr] at ih
        have hsplit : py_split sep (c :: rest) = (c :: p) :: ps := by
          rw [py_split_cons, if_neg h, hpr]
        rw [hsplit]
        cases ps with
        | nil =>
          show c :: p = c :: rest
          have ih2 : p = rest := ih
          rw [ih2]
        | cons q qs =>
          show (c :: p) ++ [sep] ++ py_join [sep] (q :: qs) = c :: rest
          have ih2 : p ++ [sep] ++ py_join [sep] (q :: qs) = rest := ih
          rw [← ih2]
          rfl

theorem mem_ins_ord (le : Str → Str → Bool) (a b : Str) : ∀ l : List Str,
    b ∈ ins_ord le a l ↔ b = a ∨ b ∈ l := by
  intro l
  induction l with
  | nil => simp [ins_ord]
  | cons x xs ih =>
    unfold ins_ord
    by_cases h : le a x = true
    · rw [if_pos h]
      simp only [List.mem_cons]
    · rw [if_neg h]
      simp only [List.mem_cons, ih]
      tauto

theorem mem_py_sorted (le : Str → Str → Bool) (b : Str) : ∀ l : List Str,
    b ∈ py_sorted le l ↔ b ∈ l := by
  intro l
  induction l with
  | nil => simp [py_sorted]
  | cons x xs ih => simp [py_sorted, mem_ins_ord, ih]

theorem mem_append_if_absent {α : Type} [DecidableEq α] (l : List α) (a : α) :
    a ∈ append_if_absent l a := by
  unfold append_if_absent
  by_cases h : a ∈ l <;> simp [h]

theorem nodup_append_if_absent {α : Type} [DecidableEq α] (l : List α) (a : α)
    (h : l.Nodup) : (append_if_absent l a).Nodup := by
  unfold append_if_absent
  by_cases hm : a ∈ l
  · rw [if_pos hm]
    exact h
  · rw [if_neg hm, List.nodup_append]
    refine ⟨h, List.nodup_singleton a, ?_⟩
    intro x hx hxa
    rw [List.mem_singleton] at hxa
    exact hm (hxa ▸ hx)

theorem conta_eq_zero_of_not_mem {α : Type} [DecidableEq α] (a : α) :
    ∀ l : List α, a ∉ l → conta a l = 0 := by
  intro l
  induction l with
  | nil => intro _; rfl
  | cons x xs ih =>
    intro h
    have hx : ¬ x = a := fun e => h (by simp [e])
    have hxs : a ∉ xs := fun e => h (List.mem_cons_of_mem _ e)
    unfold conta
    rw [List.filter_cons]
    simp only [hx, decide_eq_true_eq, if_false]
    exact ih hxs

theorem conta_eq_one_of_nodup_mem {α : Type} [DecidableEq α] (a : α) :
    ∀ l : List α, l.Nodup → a ∈ l → conta a l = 1 := by
  intro l
  induction l with
  | nil => intro _ h; simp at h
  | cons x xs ih =>
    intro hnd hm
    have hnd2 := List.nodup_cons.mp hnd
    unfold conta
    rw [List.filter_cons]
    by_cases hx : x = a
    · simp only [hx, decide_eq_true_eq, if_true, List.length_cons]
      have hax : a ∉ xs := hx ▸ hnd2.1
      have h0 : conta a xs = 0 := conta_eq_zero_of_not_mem a xs hax
      unfold conta at h0
      rw [h0]
    · simp only [hx, decide_eq_true_eq, if_false]
      have ham : a ∈ xs := by
        rcases List.mem_cons.mp hm with h | h
        · exact absurd h.symm hx
        · exact h
      have h1 := ih hnd2.2 ham
      unfold conta at h1
      exact h1

theorem conta_append_singleton {α : Type} [DecidableEq α] (a : α) (l : List α) :
    conta a (l ++ [a]) = conta a l + 1 := by
  unfold conta
  rw [List.filter_append]
  simp

theorem conta_append_if_absent_self {α : Type} [DecidableEq α] (l : List α) (a : α)
    (h : l.Nodup) : conta a (append_if_absent l a) = 1 := by
  unfold append_if_absent
  by_cases hm : a ∈ l
  · rw [if_pos hm]
    exact conta_eq_one_of_nodup_mem a l h hm
  · rw [if_neg hm, conta_append_singleton, conta_eq_zero_of_not_mem a l hm]

theorem append_if_absent_of_mem {α : Type} [DecidableEq α] (l : List α) (a : α)
    (h : a ∈ l) : append_if_absent l a = l := by
  simp [append_if_absent, h]

/-- Under the proviso that no user_-prefixed queue name repeats the
    marker "user_" in its remainder, the parsed user list of
    buscar_usuarios_disponiveis contains r exactly when the personal
    queue user_r is declared on the broker. -/
theorem mem_buscar_usuarios (st : Broker) (r : Str)
    (hP : ∀ q ∈ st.filas, (str "user_").isPrefixOf q = true →
      contains_sub (str "user_") (q.drop (str "user_").length) = false) :
    r ∈ buscar_usuarios_disponiveis st ↔ (str "user_" ++ r) ∈ st.filas := by
  unfold buscar_usuarios_disponiveis
  rw [mem_py_sorted]
  simp only [List.mem_map, List.mem_filter]
  constructor
  · rintro ⟨q, ⟨hq, hpre⟩, hrep⟩
    have hdec : str "user_" ++ q.drop (str "user_").length = q :=
      eq_append_drop_of_isPrefixOf _ q hpre
    have hcs := hP q hq hpre
    have hrw : py_replace (str "user_") [] q = q.drop (str "user_").length := by
      conv_lhs => rw [← hdec]
      rw [py_replace_append_self _ _ _ (by decide) hcs]
      rfl
    rw [hrw] at hrep
    rw [← hrep, hdec]
    exact hq
  · intro hq
    refine ⟨str "user_" ++ r, ⟨hq, isPrefixOf_append_self _ _⟩, ?_⟩
    have hdrop : (str "user_" ++ r).drop (str "user_").length = r :=
      List.drop_left _ _
    have hcs := hP _ hq (isPrefixOf_append_self _ _)
    rw [hdrop] at hcs
    rw [py_replace_append_self _ _ _ (by decide) hcs]
    rfl

/- Claim theorems. -/

/-- C1 (amended): the naming round-trip holds for every logical name
    whose user part does not itself contain the marker "user_" (user
    queues are parsed with replace("user_", ""), which removes every
    occurrence) and, for subscription queues topic_(t)_(u), whenever the
    user name u contains no underscore (the parse splits on "_" and drops
    exactly one trailing fragment for the user); the topic t may contain
    underscores freely. -/
theorem naming_roundtrip_amended (n t u : Str)
    (hn : contains_sub (str "user_") n = false)
    (hu : ('_' : Char) ∉ u) :
    parse_user_queue (str "user_" ++ n) = some n ∧
    parse_subscription_queue u (str "topic_" ++ t ++ str "_" ++ u) = some t := by
  constructor
  · unfold parse_user_queue
    rw [isPrefixOf_append_self]
    rw [if_pos rfl]
    rw [py_replace_append_self _ _ _ (by decide) hn]
    rfl
  · unfold parse_subscription_queue
    have hq1 : str "topic_" ++ t ++ str "_" ++ u
        = str "topic" ++ '_' :: (t ++ '_' :: u) := by
      have e : str "topic_" = str "topic" ++ ['_'] := rfl
      have e2 : str "_" = ['_'] := rfl
      rw [e, e2]
      simp
    have hpre : (str "topic_").isPrefixOf (str "topic_" ++ t ++ str "_" ++ u) = true := by
      have e : str "topic_" ++ t ++ str "_" ++ u
          = str "topic_" ++ (t ++ str "_" ++ u) := by simp
      rw [e]
      exact isPrefixOf_append_self _ _
    have hsuf : (str "_" ++ u).isSuffixOf (str "topic_" ++ t ++ str "_" ++ u) = true := by
      have e : str "topic_" ++ t ++ str "_" ++ u
          = (str "topic_" ++ t) ++ (str "_" ++ u) := by simp
      rw [e]
      exact isSuffixOf_append_self _ _
    have hsplit : py_split '_' (str "topic_" ++ t ++ str "_" ++ u)
        = str "topic" :: (py_split '_' t ++ [u]) := by
      rw [hq1, py_split_append, py_split_of_not_mem '_' (str "topic") (by decide)]
      have e2 : t ++ '_' :: u = t ++ '_' :: u := rfl
      rw [py_split_append, py_split_of_not_mem '_' u hu]
      rfl
    rw [hpre, hsuf]
    simp only [Bool.and_self, if_true]
    rw [hsplit]
    have hlen : 3 ≤ (str "topic" :: (py_split '_' t ++ [u])).length := by
      have h1 : 1 ≤ (py_split '_' t).length :=
        List.length_pos.mpr (py_split_ne_nil '_' t)
      simp only [List.length_cons, List.length_append, List.length_singleton]
      omega
    rw [if_pos hlen]
    have hdrop : (str "topic" :: (py_split '_' t ++ [u])).drop 1
        = py_split '_' t ++ [u] := rfl
    rw [hdrop, List.dropLast_concat]
    have hjoin : py_join (str "_") (py_split '_' t) = t := py_join_split '_' t
    rw [hjoin]

/-- C1 witness: concrete names alice, news, bob satisfy the amended
    hypotheses and round-trip exactly. -/
theorem naming_roundtrip_amended_witness :
    contains_sub (str "user_") (str "alice") = false ∧
    ('_' : Char) ∉ str "bob" ∧
    (parse_user_queue (str "user_" ++ str "alice") = some (str "alice") ∧
     parse_subscription_queue (str "bob")
       (str "topic_" ++ str "news" ++ str "_" ++ str "bob") = some (str "news")) :=
  ⟨by decide, by decide,
   naming_roundtrip_amended (str "alice") (str "news") (str "bob") (by decide) (by decide)⟩

/-- C1 counterexample: the name user_x matches [A-Za-z0-9_-]+, but its
    personal queue user_user_x parses back to x, not user_x, because
    replace("user_", "") removes every occurrence of the marker. -/
theorem naming_roundtrip_counterexample :
    parse_user_queue (str "user_" ++ str "user_x") = some (str "x") ∧
    str "x" ≠ str "user_x" := by decide

/-- C2: each of the three GUI dispatch handlers rejects empty content and
    content longer than 5000 characters with a validation warning shown
    before any client call, leaving the broker state (in particular the
    publish log) untouched. -/
theorem dispatch_validacao_conteudo (cl : Cliente) (st : Broker)
    (alvo conteudo agora : Str)
    (h : conteudo = [] ∨ 5000 < conteudo.length) :
    (gui_enviar_mensagem_usuario cl st alvo conteudo agora).1.e_aviso = true ∧
    (gui_enviar_mensagem_usuario cl st alvo conteudo agora).2 = st ∧
    (gui_enviar_mensagem_topico cl st alvo conteudo agora).1.e_aviso = true ∧
    (gui_enviar_mensagem_topico cl st alvo conteudo agora).2 = st ∧
    (gui_enviar_mensagem_fila cl st alvo conteudo agora).1.e_aviso = true ∧
    (gui_enviar_mensagem_fila cl st alvo conteudo agora).2 = st := by
  unfold gui_enviar_mensagem_usuario gui_enviar_mensagem_topico gui_enviar_mensagem_fila
  rcases h with h | h
  · subst h
    by_cases ha : alvo = ([] : Str) <;>
      simp [ha, GuiResultado.e_aviso]
  · have hne : conteudo ≠ [] := by
      intro e
      rw [e] at h
      simp at h
    by_cases ha : alvo = ([] : Str) <;>
      simp [ha, hne, h, GuiResultado.e_aviso]

/-- C2 witness: empty content against a concrete connected client. -/
theorem dispatch_validacao_conteudo_witness :
    ((str "" = ([] : Str)) ∨ 5000 < (str "").length) ∧
    ((gui_enviar_mensagem_usuario ⟨true, str "alice", []⟩ ⟨[], [], [], []⟩
        (str "bob") (str "") (str "t0")).1.e_aviso = true ∧
     (gui_enviar_mensagem_usuario ⟨true, str "alice", []⟩ ⟨[], [], [], []⟩
        (str "bob") (str "") (str "t0")).2 = ⟨[], [], [], []⟩ ∧
     (gui_enviar_mensagem_topico ⟨true, str "alice", []⟩ ⟨[], [], [], []⟩
        (str "bob") (str "") (str "t0")).1.e_aviso = true ∧
     (gui_enviar_mensagem_topico ⟨true, str "alice", []⟩ ⟨[], [], [], []⟩
        (str "bob") (str "") (str "t0")).2 = ⟨[], [], [], []⟩ ∧
     (gui_enviar_mensagem_fila ⟨true, str "alice", []⟩ ⟨[], [], [], []⟩
        (str "bob") (str "") (str "t0")).1.e_aviso = true ∧
     (gui_enviar_mensagem_fila ⟨true, str "alice", []⟩ ⟨[], [], [], []⟩
        (str "bob") (str "") (str "t0")).2 = ⟨[], [], [], []⟩) :=
  ⟨Or.inl rfl,
   dispatch_validacao_conteudo ⟨true, str "alice", []⟩ ⟨[], [], [], []⟩
     (str "bob") (str "") (str "t0") (Or.inl rfl)⟩

/-- C3 (amended): provided no user_-prefixed queue name repeats the
    "user_" marker inside its remainder, sending a direct message to a
    recipient whose personal queue user_(r) is absent fails with the
    user-does-not-exist result and leaves the broker untouched (zero
    publishes), and sending to a recipient whose personal queue exists
    publishes exactly one persistent Direct envelope carrying the sender
    and content to that queue and reports success.  Without the proviso
    the equivalence between the code's parsed-list check and queue
    existence breaks (see the counterexample). -/
theorem envio_direto_amended (cl : Cliente) (st : Broker)
    (destinatario conteudo agora : Str)
    (hc : cl.conectado = true)
    (hP : ∀ q ∈ st.filas, (str "user_").isPrefixOf q = true →
      contains_sub (str "user_") (q.drop (str "user_").length) = false) :
    ((str "user_" ++ destinatario) ∉ st.filas →
      enviar_mensagem_usuario cl st destinatario conteudo agora =
        ((false, Msg.usuarioNaoExiste destinatario), st)) ∧
    ((str "user_" ++ destinatario) ∈ st.filas →
      enviar_mensagem_usuario cl st destinatario conteudo agora =
        ((true, Msg.mensagemEnviadaComSucesso),
         st.basic_publish [] (str "user_" ++ destinatario)
           { tipo := MENSAGEM_DIRETA, remetente := some cl.nome_usuario,
             destinatario := some destinatario, topico := none, fila := none,
             conteudo := conteudo, timestamp := agora } true)) := by
  unfold enviar_mensagem_usuario
  rw [esta_conectado, hc]
  simp only [Bool.true_eq_false, if_false]
  constructor
  · intro hq
    have hm : destinatario ∉ buscar_usuarios_disponiveis st := by
      intro hmem
      exact hq ((mem_buscar_usuarios st destinatario hP).mp hmem)
    rw [if_neg hm]
  · intro hq
    have hm : destinatario ∈ buscar_usuarios_disponiveis st :=
      (mem_buscar_usuarios st destinatario hP).mpr hq
    rw [if_pos hm]

/-- C3 witness: alice sends to the provisioned bob; the proviso and the
    membership hypothesis hold concretely. -/
theorem envio_direto_amended_witness :
    (str "user_" ++ str "bob") ∈
      ([str "user_alice", str "user_bob"] : List Str) ∧
    enviar_mensagem_usuario ⟨true, str "alice", []⟩
        ⟨[str "user_alice", str "user_bob"], [], [], []⟩
        (str "bob") (str "oi") (str "t0") =
      ((true, Msg.mensagemEnviadaComSucesso),
       Broker.basic_publish ⟨[str "user_alice", str "user_bob"], [], [], []⟩
         [] (str "user_" ++ str "bob")
         { tipo := MENSAGEM_DIRETA, remetente := some (str "alice"),
           destinatario := some (str "bob"), topico := none, fila := none,
           conteudo := str "oi", timestamp := str "t0" } true) :=
  ⟨by decide,
   (envio_direto_amended ⟨true, str "alice", []⟩
      ⟨[str "user_alice", str "user_bob"], [], [], []⟩
      (str "bob") (str "oi") (str "t0") rfl (by decide)).2 (by decide)⟩

/-- C3 counterexample: with only the queue user_user_x declared (the
    personal queue of the pattern-valid user user_x), the recipient x has
    no personal queue user_x, yet the mangled parsed list contains x, so
    the send reports success and performs one publish instead of failing
    with zero publishes. -/
theorem envio_direto_counterexample :
    (str "user_" ++ str "x") ∉ ([str "user_user_x"] : List Str) ∧
    (enviar_mensagem_usuario ⟨true, str "alice", []⟩
        ⟨[str "user_user_x"], [], [], []⟩
        (str "x") (str "oi") (str "t0")).1.1 = true ∧
    ((enviar_mensagem_usuario ⟨true, str "alice", []⟩
        ⟨[str "user_user_x"], [], [], []⟩
        (str "x") (str "oi") (str "t0")).2).publicacoes.length = 1 := by
  decide

/-- C4: publishing to a topic whose fanout exchange is absent fails with
    the topic-does-not-exist result, leaving the whole broker state (the
    exchange list included) unchanged; when the exchange exists, exactly
    one persistent TopicBroadcast envelope is appended to the publish log,
    addressed to the exchange with an empty routing key, and the exchange
    list is still unchanged (the existence check is passive). -/
theorem publicar_topico_spec (cl : Cliente) (st : Broker)
    (nome_topico conteudo agora : Str)
    (hc : cl.conectado = true) :
    (nome_topico ∉ st.exchanges →
      enviar_mensagem_topico cl st nome_topico conteudo agora =
        ((false, Msg.topicoNaoExiste nome_topico), st)) ∧
    (nome_topico ∈ st.exchanges →
      enviar_mensagem_topico cl st nome_topico conteudo agora =
        ((true, Msg.mensagemPublicadaNoTopico nome_topico),
         st.basic_publish nome_topico []
           { tipo := MENSAGEM_TOPICO, remetente := some cl.nome_usuario,
             destinatario := none, topico := some nome_topico, fila := none,
             conteudo := conteudo, timestamp := agora } true) ∧
      ((enviar_mensagem_topico cl st nome_topico conteudo agora).2).exchanges
        = st.exchanges) := by
  unfold enviar_mensagem_topico
  rw [esta_conectado, hc]
  simp only [Bool.true_eq_false, if_false]
  constructor
  · intro hq
    rw [if_neg hq]
  · intro hq
    rw [if_pos hq]
    exact ⟨rfl, rfl⟩

/-- C4 witness: a publish to the declared topic news succeeds with one
    logged envelope, and a publish to the undeclared topic other fails. -/
theorem publicar_topico_spec_witness :
    (str "news") ∈ ([str "news"] : List Str) ∧
    (enviar_mensagem_topico ⟨true, str "carol", []⟩
        ⟨[], [str "news"], [], []⟩ (str "news") (str "oi") (str "t0") =
      ((true, Msg.mensagemPublicadaNoTopico (str "news")),
       Broker.basic_publish ⟨[], [str "news"], [], []⟩ (str "news") []
         { tipo := MENSAGEM_TOPICO, remetente := some (str "carol"),
           destinatario := none, topico := some (str "news"), fila := none,
           conteudo := str "oi", timestamp := str "t0" } true) ∧
     ((enviar_mensagem_topico ⟨true, str "carol", []⟩
        ⟨[], [str "news"], [], []⟩ (str "news") (str "oi") (str "t0")).2).exchanges
       = [str "news"]) :=
  ⟨by decide,
   (publicar_topico_spec ⟨true, str "carol", []⟩ ⟨[], [str "news"], [], []⟩
      (str "news") (str "oi") (str "t0") rfl).2 (by decide)⟩

/-- C5 (amended): sending to a general queue publishes exactly one
    persistent QueueMessage envelope to the default exchange with the
    queue name as routing key and reports success, but performs no
    queue_declare: the declared-queue list is unchanged, so a message
    sent to a nonexistent queue is dropped by the broker, not preserved. -/
theorem envio_fila_amended (cl : Cliente) (st : Broker)
    (nome_fila conteudo agora : Str)
    (hc : cl.conectado = true) :
    enviar_mensagem_fila cl st nome_fila conteudo agora =
      ((true, Msg.mensagemEnviadaParaFila nome_fila),
       st.basic_publish [] nome_fila
         { tipo := MENSAGEM_FILA, remetente := some cl.nome_usuario,
           destinatario := none, topico := none, fila := some nome_fila,
           conteudo := conteudo, timestamp := agora } true) ∧
    ((enviar_mensagem_fila cl st nome_fila conteudo agora).2).filas = st.filas := by
  unfold enviar_mensagem_fila
  rw [esta_conectado, hc]
  simp [Broker.basic_publish]

/-- C5 witness: a concrete send to the queue q on a broker with no
    declared queues. -/
theorem envio_fila_amended_witness :
    enviar_mensagem_fila ⟨true, str "alice", []⟩ ⟨[], [], [], []⟩
        (str "q") (str "oi") (str "t0") =
      ((true, Msg.mensagemEnviadaParaFila (str "q")),
       Broker.basic_publish ⟨[], [], [], []⟩ [] (str "q")
         { tipo := MENSAGEM_FILA, remetente := some (str "alice"),
           destinatario := none, topico := none, fila := some (str "q"),
           conteudo := str "oi", timestamp := str "t0" } true) ∧
    ((enviar_mensagem_fila ⟨true, str "alice", []⟩ ⟨[], [], [], []⟩
        (str "q") (str "oi") (str "t0")).2).filas = [] :=
  envio_fila_amended ⟨true, str "alice", []⟩ ⟨[], [], [], []⟩
    (str "q") (str "oi") (str "t0") rfl

/-- C5 counterexample: the queue q was never declared, the send still
    reports success and publishes, and the declared-queue list remains
    empty: no durable declaration of the absent queue happens, contrary
    to the claimed self-provisioning. -/
theorem envio_fila_counterexample :
    (str "q") ∉ (([] : List Str)) ∧
    (enviar_mensagem_fila ⟨true, str "alice", []⟩ ⟨[], [], [], []⟩
        (str "q") (str "oi") (str "t0")).1.1 = true ∧
    ((enviar_mensagem_fila ⟨true, str "alice", []⟩ ⟨[], [], [], []⟩
        (str "q") (str "oi") (str "t0")).2).filas = [] ∧
    ((enviar_mensagem_fila ⟨true, str "alice", []⟩ ⟨[], [], [], []⟩
        (str "q") (str "oi") (str "t0")).2).publicacoes.length = 1 := by
  decide

/-- C6: subscribing twice in a row is idempotent: both calls return
    success, the binding queue topic_(t)_(u) occurs exactly once in the
    broker queue list afterwards, and the topic occurs exactly once in
    the in-memory subscribed set. -/
theorem assinar_idempotente (cl : Cliente) (st : Broker) (t : Str)
    (hc : cl.conectado = true)
    (hq : st.filas.Nodup)
    (ht : cl.topicos_assinados.Nodup) :
    (assinar_topico cl st t).1.1 = true ∧
    (assinar_topico (assinar_topico cl st t).2.1 (assinar_topico cl st t).2.2 t).1.1
      = true ∧
    conta (fila_topico t cl.nome_usuario)
      ((assinar_topico (assinar_topico cl st t).2.1 (assinar_topico cl st t).2.2 t).2.2).filas
      = 1 ∧
    conta t
      ((assinar_topico (assinar_topico cl st t).2.1 (assinar_topico cl st t).2.2 t).2.1).topicos_assinados
      = 1 := by
  unfold assinar_topico
  unfold Broker.exchange_declare Broker.queue_declare Broker.queue_bind
  simp only [esta_conectado, hc, Bool.true_eq_false, if_false]
  refine ⟨trivial, trivial, ?_, ?_⟩
  · rw [append_if_absent_of_mem _ _ (mem_append_if_absent _ _)]
    exact conta_append_if_absent_self _ _ hq
  · rw [append_if_absent_of_mem _ _ (mem_append_if_absent _ _)]
    exact conta_append_if_absent_self _ _ ht

/-- C6 witness: alice subscribes twice to news against a fresh broker. -/
theorem assinar_idempotente_witness :
    (⟨[str "user_alice"], [], [], []⟩ : Broker).filas.Nodup ∧
    (assinar_topico ⟨true, str "alice", []⟩ ⟨[str "user_alice"], [], [], []⟩
      (str "news")).1.1 = true ∧
    (assinar_topico
      (assinar_topico ⟨true, str "alice", []⟩ ⟨[str "user_alice"], [], [], []⟩
        (str "news")).2.1
      (assinar_topico ⟨true, str "alice", []⟩ ⟨[str "user_alice"], [], [], []⟩
        (str "news")).2.2 (str "news")).1.1 = true ∧
    conta (fila_topico (str "news") (str "alice"))
      ((assinar_topico
        (assinar_topico ⟨true, str "alice", []⟩ ⟨[str "user_alice"], [], [], []⟩
          (str "news")).2.1
        (assinar_topico ⟨true, str "alice", []⟩ ⟨[str "user_alice"], [], [], []⟩
          (str "news")).2.2 (str "news")).2.2).filas = 1 ∧
    conta (str "news")
      ((assinar_topico
        (assinar_topico ⟨true, str "alice", []⟩ ⟨[str "user_alice"], [], [], []⟩
          (str "news")).2.1
        (assinar_topico ⟨true, str "alice", []⟩ ⟨[str "user_alice"], [], [], []⟩
          (str "news")).2.2 (str "news")).2.1).topicos_assinados = 1 :=
  ⟨by decide,
   assinar_idempotente ⟨true, str "alice", []⟩ ⟨[str "user_alice"], [], [], []⟩
     (str "news") rfl (by decide) (by decide)⟩

/-- C7 (amended): unsubscribing a topic the user is not subscribed to is
    non-fatal and leaves the in-memory subscribed set unchanged, but it
    returns exactly the same success result as removing a real
    subscription; the code produces no distinct not-subscribed result. -/
theorem desassinar_nao_assinado_amended (cl : Cliente) (st : Broker) (t : Str)
    (hc : cl.conectado = true)
    (hns : t ∉ cl.topicos_assinados) :
    (desassinar_topico cl st t).1 = (true, Msg.assinaturaRemovida t) ∧
    ((desassinar_topico cl st t).2.1).topicos_assinados = cl.topicos_assinados := by
  unfold desassinar_topico
  simp only [esta_conectado, hc, Bool.true_eq_false, if_false]
  refine ⟨trivial, ?_⟩
  rw [List.filter_eq_self]
  intro a ha
  have hat : a ≠ t := fun e => hns (e ▸ ha)
  simp [hat]

/-- C7 witness: a connected client not subscribed to news. -/
theorem desassinar_nao_assinado_amended_witness :
    (str "news") ∉ ([] : List Str) ∧
    ((desassinar_topico ⟨true, str "alice", []⟩ ⟨[], [], [], []⟩ (str "news")).1
       = (true, Msg.assinaturaRemovida (str "news")) ∧
     ((desassinar_topico ⟨true, str "alice", []⟩ ⟨[], [], [], []⟩
        (str "news")).2.1).topicos_assinados = []) :=
  ⟨by decide,
   desassinar_nao_assinado_amended ⟨true, str "alice", []⟩ ⟨[], [], [], []⟩
     (str "news") rfl (by decide)⟩

/-- C7 counterexample: unsubscribing news while not subscribed returns
    precisely the same (success, message) value as unsubscribing it while
    actually subscribed: the claimed distinct not-subscribed result does
    not exist. -/
theorem desassinar_counterexample :
    (desassinar_topico ⟨true, str "alice", []⟩ ⟨[], [], [], []⟩ (str "news")).1 =
    (desassinar_topico ⟨true, str "alice", [str "news"]⟩
      ⟨[str "topic_news_alice"], [], [], []⟩ (str "news")).1 := by
  decide

/-- C8: for every delivered body and every callback behaviour (absent,
    returning normally, or raising), each worker callback acknowledges
    the message exactly once and lets no exception escape into the
    consume loop: the except branch acks and swallows, so a poison
    message is never redelivered and the worker never crashes. -/
theorem callbacks_ack_sempre (body : Body) (cb : Option ResultadoCallback) :
    (callback_fila_pessoal body cb).acks = 1 ∧
    (callback_fila_pessoal body cb).excecao_propagada = false ∧
    (callback_topicos body cb).acks = 1 ∧
    (callback_topicos body cb).excecao_propagada = false := by
  cases body <;> rcases cb with _ | r <;>
    first
      | exact ⟨rfl, rfl, rfl, rfl⟩
      | (cases r <;> exact ⟨rfl, rfl, rfl, rfl⟩)

/-- C9: a fetched payload that decodes to text but is not valid encoded
    content is returned as a raw-content envelope whose kind is the
    out-of-vocabulary mensagem_simples (none of the three wire kinds, the
    spec-level Unknown), whose content is the raw payload text, and the
    message is still acknowledged exactly once. -/
theorem poll_once_raw_text (cl : Cliente) (nome_fila s agora : Str)
    (hc : cl.conectado = true) :
    consumir_uma_mensagem_fila cl nome_fila (Busca.entrega (Body.rawText s)) agora =
      ((true, some { tipo := str "mensagem_simples", remetente := none,
                     destinatario := none, topico := none, fila := none,
                     conteudo := s, timestamp := agora }), 1) ∧
    str "mensagem_simples" ∉ [MENSAGEM_DIRETA, MENSAGEM_TOPICO, MENSAGEM_FILA] := by
  constructor
  · unfold consumir_uma_mensagem_fila
    rw [esta_conectado, hc]
    simp [interpretar_corpo]
  · decide

/-- C9 witness: a concrete connected client fetching the raw text ola. -/
theorem poll_once_raw_text_witness :
    consumir_uma_mensagem_fila ⟨true, str "alice", []⟩ (str "q")
        (Busca.entrega (Body.rawText (str "ola"))) (str "t0") =
      ((true, some { tipo := str "mensagem_simples", remetente := none,
                     destinatario := none, topico := none, fila := none,
                     conteudo := str "ola", timestamp := str "t0" }), 1) ∧
    str "mensagem_simples" ∉ [MENSAGEM_DIRETA, MENSAGEM_TOPICO, MENSAGEM_FILA] :=
  poll_once_raw_text ⟨true, str "alice", []⟩ (str "q") (str "ola") (str "t0") rfl

/-- C10: the single-message peek returns the identical value
    (failure flag, no message, zero acks) when the broker call raises,
    when the queue is empty, and when the payload is not valid UTF-8 (the
    UnicodeDecodeError is not a JSONDecodeError, so it escapes to the
    outer handler instead of producing a raw-content envelope): the
    caller cannot distinguish the three cases from the returned value. -/
theorem poll_once_indistinguivel (cl : Cliente) (nome_fila agora : Str) :
    consumir_uma_mensagem_fila cl nome_fila Busca.erro agora = ((false, none), 0) ∧
    consumir_uma_mensagem_fila cl nome_fila Busca.vazia agora = ((false, none), 0) ∧
    consumir_uma_mensagem_fila cl nome_fila (Busca.entrega Body.invalidUtf8) agora
      = ((false, none), 0) := by
  unfold consumir_uma_mensagem_fila
  cases h : esta_conectado cl <;> simp [interpretar_corpo]

end MOM
